import Mathlib

/-!
Shallow embedding of the CheerDad.app backend (src/main.py) and the Streamlit
client (src/streamlit_app.py), restricted to the parts the specification's
claims are about: the Supabase-backed schedule session store (save_schedule /
get_schedule), the /upload-schedule, /query-schedule and
/create-checkout-session endpoints, and the client-side usage gates.

Modelling conventions:
- The Supabase table `schedule_sessions` is a `List ScheduleRow` in insertion
  order.  `insert` appends; `delete ... .eq(col, v)` filters out every row
  matching `v`; `select ... .eq('session_id', sid)` returns the matching rows
  in store order, so `result.data[0]` is the head of the filtered list.
  `created_at` is set by the database at insertion time; we model it as the
  wall-clock instant of the insert.
- Wall-clock time is a `Nat` counting milliseconds since the epoch.
  Python's `int(time.time())` is then `nowMs / 1000` (floor division, which
  agrees with `int()` truncation for non-negative times), and the 72-hour
  cutoff `datetime.now(utc) - timedelta(hours=72)` is `nowMs - RETENTION_MS`.
- External collaborators (PDF text extraction, the chat-completion provider,
  Stripe) are parameters: extraction outcomes are passed in as an
  `Except String String` (exception message or extracted text) and the
  question-answering / payment providers as plain functions.  Endpoint
  results record, alongside the HTTP outcome, which provider call (if any)
  was made and with which arguments.
- FastAPI's `raise HTTPException(status, detail)` is an `Except HttpError`
  error value.  Inside `/upload-schedule` the whole body runs under
  `try ... except Exception as e: raise HTTPException(500, str(e))`; since
  `HTTPException` is itself a subclass of `Exception`, the embedded
  `uploadScheduleBody` returns `Except PyExc`, and the wrapper maps any
  escaping exception `e` to a 500 whose detail is `str(e)` (for a Starlette
  `HTTPException` that string is "status: detail").
-/

/-- A row of the `schedule_sessions` table (src/main.py, save_schedule /
get_schedule): session id, extracted PDF text, and insertion timestamp. -/
structure ScheduleRow where
  session_id : String
  extracted_text : String
  created_at : Nat
deriving DecidableEq

/-- An HTTP error as raised by `HTTPException(status_code, detail)`. -/
structure HttpError where
  status : Nat
  detail : String
deriving DecidableEq

/-- A Python exception as seen by a blanket `except Exception` handler:
either a Starlette/FastAPI `HTTPException` or any other exception,
carrying its message. -/
inductive PyExc where
  | http (err : HttpError)
  | other (msg : String)
deriving DecidableEq

/-- Python's `str(e)` on an exception: Starlette's `HTTPException.__str__`
returns "status_code: detail"; for other exceptions we keep the message. -/
def pyExcMessage : PyExc → String
  | .http e => Nat.repr e.status ++ ": " ++ e.detail
  | .other m => m

/-- Python's `s.endswith(pat)` on strings, as a suffix check on the
character sequence. -/
def endswith (s pat : String) : Bool :=
  pat.data == s.data.drop (s.data.length - pat.data.length)

/-- Retention window of the session store: src/main.py line 39,
`timedelta(hours=72)`, in milliseconds. -/
def RETENTION_MS : Nat := 72 * 3600 * 1000

/-- The expiry cutoff computed by save_schedule:
`datetime.now(timezone.utc) - timedelta(hours=72)` (src/main.py line 39). -/
def cutoffMs (nowMs : Nat) : Nat := nowMs - RETENTION_MS

/-- Session id generation of the /upload-schedule endpoint
(src/main.py line 616): the f-string `schedule_` followed by the decimal
representation of `int(time.time())`, i.e. of the current integer second. -/
def genSessionId (nowMs : Nat) : String :=
  "schedule_" ++ Nat.repr (nowMs / 1000)

/-- First step of save_schedule (src/main.py lines 35-36): when
`old_session_id` is truthy (present and non-empty), delete every row whose
`session_id` equals it. -/
def deleteOldSession (old_session_id : Option String) (store : List ScheduleRow) :
    List ScheduleRow :=
  match old_session_id with
  | none => store
  | some oldId =>
    if oldId = "" then store
    else store.filter (fun r => !decide (r.session_id = oldId))

/-- save_schedule (src/main.py lines 32-45): delete the old session if
provided, delete all rows older than 72 hours, then insert the new row. -/
def save_schedule (session_id extracted_text : String) (old_session_id : Option String)
    (nowMs : Nat) (store : List ScheduleRow) : List ScheduleRow :=
  ((deleteOldSession old_session_id store).filter
      (fun r => !decide (r.created_at < cutoffMs nowMs)))
    ++ [{ session_id := session_id, extracted_text := extracted_text, created_at := nowMs }]

/-- get_schedule (src/main.py lines 47-52): select the rows whose
`session_id` matches, return `result.data[0]['extracted_text']` when the
result is non-empty and `None` otherwise.  Note that no time is consulted:
the lookup has no expiry check. -/
def get_schedule (session_id : String) (store : List ScheduleRow) : Option String :=
  ((store.filter (fun r => decide (r.session_id = session_id))).head?).map
    (fun r => r.extracted_text)

/-- Session creation as performed by /upload-schedule (src/main.py
lines 616-617): generate the id from the current time, call save_schedule,
and return the new id together with the updated store. -/
def createSession (nowMs : Nat) (extracted_text : String) (old_session_id : Option String)
    (store : List ScheduleRow) : String × List ScheduleRow :=
  let session_id := genSessionId nowMs
  (session_id, save_schedule session_id extracted_text old_session_id nowMs store)

/-- Body of the `try` block of /upload-schedule (src/main.py lines 611-618):
read the bytes and extract the text (the extraction outcome, success or
raised exception, is the `extraction` parameter), raise a 400 HTTPException
when the text is falsy or shorter than 50 characters, otherwise store the
new session and return the response payload `(session_id, message)`. -/
def uploadScheduleBody (extraction : Except String String)
    (old_session_id : Option String) (nowMs : Nat) (store : List ScheduleRow) :
    Except PyExc ((String × String) × List ScheduleRow) :=
  match extraction with
  | .error msg => .error (.other msg)
  | .ok extracted_text =>
    if extracted_text = "" ∨ extracted_text.length < 50 then
      .error (.http
        ⟨400, "Could not read enough text from this PDF. Try a different file."⟩)
    else
      let result := createSession nowMs extracted_text old_session_id store
      .ok ((result.1, "Schedule loaded successfully."), result.2)

/-- The /upload-schedule endpoint (src/main.py lines 606-620): reject
non-PDF filenames with a 400 outside the `try` block; then run the body and
map ANY exception escaping it - the inner 400 HTTPException included, since
`HTTPException` is an `Exception` - to a 500 whose detail is `str(e)`.
Returns the HTTP outcome and the resulting store (unchanged on error). -/
def upload_schedule (filename : String) (extraction : Except String String)
    (old_session_id : Option String) (nowMs : Nat) (store : List ScheduleRow) :
    Except HttpError (String × String) × List ScheduleRow :=
  if endswith filename ".pdf" = false then
    (.error ⟨400, "Only PDF files are supported."⟩, store)
  else
    match uploadScheduleBody extraction old_session_id nowMs store with
    | .ok (resp, store2) => (.ok resp, store2)
    | .error e => (.error ⟨500, pyExcMessage e⟩, store)

/-- The /query-schedule endpoint (src/main.py lines 622-643): look the
session up; when the stored text is falsy (absent row or empty string),
raise 404 without calling the provider; otherwise forward the stored text
and the question to the chat-completion provider and return its answer
unmodified.  The second component records the provider call: `none` when
the provider was never invoked, `some (text, question)` when it was invoked
with exactly those arguments. -/
def query_schedule (provider : String → String → String) (session_id question : String)
    (store : List ScheduleRow) : Except HttpError String × Option (String × String) :=
  match get_schedule session_id store with
  | none =>
    (.error ⟨404, "Schedule not found. Please re-upload your PDF."⟩, none)
  | some schedule_text =>
    if schedule_text = "" then
      (.error ⟨404, "Schedule not found. Please re-upload your PDF."⟩, none)
    else
      (.ok (provider schedule_text question), some (schedule_text, question))

/-- The /create-checkout-session endpoint (src/main.py lines 675-693):
look the plan type up in the dict of the two configured price ids (the env
variables are `Option String` since they may be unset), return the error
payload `Invalid plan type` when the selected price is falsy (key absent,
or a `None`/empty configured value), and otherwise call Stripe with the
selected price and the email and return the session URL.  The second
component records whether the outbound Stripe call was performed. -/
def create_checkout_session (monthly_price annual_price : Option String)
    (email plan_type : String) (stripe : String → String → String) :
    Except String String × Bool :=
  let selected_price :=
    if plan_type = "monthly" then monthly_price
    else if plan_type = "annual" then annual_price
    else none
  match selected_price with
  | none => (.error "Invalid plan type", false)
  | some p =>
    if p = "" then (.error "Invalid plan type", false)
    else (.ok (stripe p email), true)

/-- Free-tier limit of the main front end (src/main.py line 302,
`const FREE_LIMIT = 7`). -/
def FREE_LIMIT : Nat := 7

/-- The usage gate of the main front end's record buttons (src/main.py
lines 334-335 and 465): the click handler bails out to checkout when
`usage >= FREE_LIMIT` and proceeds otherwise.  No paid flag is consulted. -/
def record_allowed (usage : Nat) : Bool :=
  !decide (FREE_LIMIT ≤ usage)

/-- The usage gate of the Streamlit client (src/streamlit_app.py line 45):
`if is_paid or st.session_state.usage_count < 3`. -/
def translation_allowed (is_paid : Bool) (usage_count : Nat) : Bool :=
  is_paid || decide (usage_count < 3)

/-- Modelled from the spec: the usage-gating decision rule of section 4.5,
`allow = paidFlag || usageCount < freeLimit` with `freeLimit` a fixed
configuration constant.  Stated separately from the code-derived gates so
the two can be compared. -/
def usage_gate_spec (freeLimit : Nat) (paidFlag : Bool) (usageCount : Nat) : Bool :=
  paidFlag || decide (usageCount < freeLimit)

/-- Concrete schedule text of at least 50 characters, standing for a valid
extraction result in witnesses and counterexamples. -/
def TEXT_A : String :=
  "Mat 3, 2:15 PM, Level 3 Small - full competition day schedule text A."

/-- A second concrete schedule text of at least 50 characters, distinct
from `TEXT_A`. -/
def TEXT_B : String :=
  "Hall B, 9:40 AM, Level 2 Youth - replacement schedule text B, day two."

example : 50 ≤ TEXT_A.length ∧ 50 ≤ TEXT_B.length ∧ TEXT_A ≠ TEXT_B := by decide

/-!
Helper lemmas about the session store.
-/

theorem mem_deleteOldSession {r : ScheduleRow} {old : Option String}
    {store : List ScheduleRow} (h : r ∈ deleteOldSession old store) : r ∈ store := by
  cases old with
  | none => exact h
  | some oldId =>
    simp only [deleteOldSession] at h
    by_cases he : oldId = ""
    · rwa [if_pos he] at h
    · rw [if_neg he] at h
      exact List.mem_of_mem_filter h

theorem not_old_of_mem_deleteOldSession {r : ScheduleRow} {oldId : String}
    {store : List ScheduleRow} (hne : oldId ≠ "")
    (h : r ∈ deleteOldSession (some oldId) store) : r.session_id ≠ oldId := by
  simp only [deleteOldSession] at h
  rw [if_neg hne] at h
  simpa using List.of_mem_filter h

theorem mem_save_schedule {r : ScheduleRow} {sid text : String} {old : Option String}
    {t : Nat} {store : List ScheduleRow} (h : r ∈ save_schedule sid text old t store) :
    r = ⟨sid, text, t⟩ ∨ (r ∈ deleteOldSession old store ∧ ¬ r.created_at < cutoffMs t) := by
  simp only [save_schedule, List.mem_append, List.mem_singleton] at h
  rcases h with h | h
  · right
    exact ⟨List.mem_of_mem_filter h, by simpa using List.of_mem_filter h⟩
  · left
    exact h

theorem get_schedule_eq_none {sid : String} {store : List ScheduleRow}
    (h : ∀ r ∈ store, r.session_id ≠ sid) : get_schedule sid store = none := by
  have hf : store.filter (fun r => decide (r.session_id = sid)) = [] :=
    List.filter_eq_nil_iff.mpr (by intro a ha; simpa using h a ha)
  simp [get_schedule, hf]

theorem get_schedule_of_only_new {sid text : String} {t : Nat}
    {store2 : List ScheduleRow} (h : ∀ r ∈ store2, r.session_id ≠ sid) :
    get_schedule sid (store2 ++ [⟨sid, text, t⟩]) = some text := by
  have hf : store2.filter (fun r => decide (r.session_id = sid)) = [] :=
    List.filter_eq_nil_iff.mpr (by intro a ha; simpa using h a ha)
  simp [get_schedule, List.filter_append, hf]

/-!
Decimal representations of distinct naturals are distinct.  `Nat.repr`
builds the digit string through `Nat.toDigitsCore`; evaluating the digit
string back with `foldlVal` recovers the number, which gives injectivity
and hence lets us compare generated session ids.
-/

def charVal (c : Char) : Nat := c.toNat - 48

def foldlVal (l : List Char) : Nat := l.foldl (fun a c => a * 10 + charVal c) 0

theorem charVal_digitChar {d : Nat} (h : d < 10) : charVal (Nat.digitChar d) = d := by
  interval_cases d <;> rfl

theorem toDigitsCore_val (f : Nat) :
    ∀ (n : Nat) (l : List Char), n < f →
      ∃ pre, Nat.toDigitsCore 10 f n l = pre ++ l ∧ foldlVal pre = n := by
  induction f with
  | zero => intro n l h; exact absurd h (Nat.not_lt_zero n)
  | succ f ih =>
    intro n l h
    by_cases h10 : n / 10 = 0
    · refine ⟨[Nat.digitChar (n % 10)], ?_, ?_⟩
      · simp [Nat.toDigitsCore, h10]
      · have hn : n < 10 := by omega
        have hmod : n % 10 = n := Nat.mod_eq_of_lt hn
        rw [hmod]
        simp [foldlVal, charVal_digitChar hn]
    · have hlt : n / 10 < f := by omega
      obtain ⟨pre, hp, hv⟩ := ih (n / 10) (Nat.digitChar (n % 10) :: l) hlt
      refine ⟨pre ++ [Nat.digitChar (n % 10)], ?_, ?_⟩
      · simp [Nat.toDigitsCore, h10, hp, List.append_assoc]
      · rw [foldlVal, List.foldl_append]
        have hstep : List.foldl (fun a c => a * 10 + charVal c) 0 pre = n / 10 := hv
        simp only [List.foldl_cons, List.foldl_nil, hstep,
          charVal_digitChar (Nat.mod_lt n (by norm_num))]
        omega

theorem foldlVal_repr (n : Nat) : foldlVal (Nat.repr n).data = n := by
  obtain ⟨pre, hp, hv⟩ := toDigitsCore_val (n + 1) n [] (Nat.lt_succ_self n)
  have hdata : (Nat.repr n).data = pre := by
    calc (Nat.repr n).data = Nat.toDigitsCore 10 (n + 1) n [] := rfl
    _ = pre ++ [] := hp
    _ = pre := by simp
  rw [hdata]
  exact hv

theorem Nat_repr_inj {a b : Nat} (h : Nat.repr a = Nat.repr b) : a = b := by
  have h2 := congrArg (fun s => foldlVal s.data) h
  simpa [foldlVal_repr] using h2

theorem genSessionId_eq_iff (t1 t2 : Nat) :
    genSessionId t1 = genSessionId t2 ↔ t1 / 1000 = t2 / 1000 := by
  constructor
  · intro h
    have hd := congrArg String.data h
    simp only [genSessionId, String.data_append] at hd
    have hr := List.append_cancel_left hd
    have h2 := congrArg foldlVal hr
    simpa [foldlVal_repr] using h2
  · intro h
    simp [genSessionId, h]

theorem get_after_save (nowMs : Nat) (sid text : String) (old : Option String)
    (store : List ScheduleRow) (hfresh : ∀ r ∈ store, r.session_id ≠ sid) :
    get_schedule sid (save_schedule sid text old nowMs store) = some text := by
  rw [save_schedule]
  exact get_schedule_of_only_new
    (fun r hr => hfresh r (mem_deleteOldSession (List.mem_of_mem_filter hr)))

/-!
Claim theorems.
-/

/-- C1 (code evaluated at the failing input): when the uploaded file is a
PDF and the extracted text is shorter than the 50-character minimum, the
/upload-schedule endpoint does NOT answer 400: the 400 HTTPException raised
at src/main.py line 615 is raised inside the `try` block, so the blanket
`except Exception` at line 619 catches it and re-raises it as a 500 whose
detail is the stringified original exception.  No session id is returned
and the store is unchanged (no row is created). -/
theorem upload_schedule_short_text_yields_500 (text : String)
    (old_session_id : Option String) (nowMs : Nat) (store : List ScheduleRow)
    (h : text.length < 50) :
    upload_schedule "schedule.pdf" (.ok text) old_session_id nowMs store =
      (.error ⟨500, "400: Could not read enough text from this PDF. Try a different file."⟩,
        store) := by
  simp only [upload_schedule, uploadScheduleBody]
  rw [if_neg (by decide : ¬ (endswith "schedule.pdf" ".pdf" = false))]
  rw [if_pos (Or.inr h)]
  rfl

/-- C1 witness: the theorem applied at a concrete 9-character extraction. -/
theorem upload_schedule_short_text_yields_500_witness :
    upload_schedule "schedule.pdf" (.ok "too short") none 1700000000400 [] =
      (.error ⟨500, "400: Could not read enough text from this PDF. Try a different file."⟩,
        []) :=
  upload_schedule_short_text_yields_500 "too short" none 1700000000400 [] (by decide)

/-- C2 counterexample: the gate of the main front end blocks at usage 7
regardless of any paid flag, while the claimed rule
`allow = paidFlag or usageCount < freeLimit` allows a paid attempt at any
usage; moreover the two clients disagree at usage 3 (limits 7 versus 3), so
no single fixed `freeLimit` describes both gates. -/
theorem usage_gate_spec_mismatch :
    record_allowed 7 = false ∧ usage_gate_spec FREE_LIMIT true 7 = true ∧
    translation_allowed false 3 = false ∧ record_allowed 3 = true := by decide

/-- C2 (amended): the Streamlit gate implements exactly the spec rule with
freeLimit 3; the main front end's record gates allow an attempt exactly when
the usage count is below its own constant FREE_LIMIT = 7, consulting no paid
flag at all.  Each limit is a fixed constant of its client, but the two
clients use different constants. -/
theorem usage_gates_characterized (p : Bool) (u : Nat) :
    translation_allowed p u = usage_gate_spec 3 p u ∧
    (record_allowed u = true ↔ u < FREE_LIMIT) := by
  refine ⟨rfl, ?_⟩
  simp [record_allowed, FREE_LIMIT, Nat.not_le]

/-- C3 counterexample: two Create calls 500 milliseconds apart - distinct
times - fall in the same integer second, generate the same session id, and
leave two live rows with that session id in the store. -/
theorem createSession_same_second_collision :
    (1700000000400 : Nat) ≠ 1700000000900 ∧
    (createSession 1700000000400 TEXT_A none []).1 =
      (createSession 1700000000900 TEXT_B none
        (createSession 1700000000400 TEXT_A none []).2).1 ∧
    ((createSession 1700000000900 TEXT_B none
        (createSession 1700000000400 TEXT_A none []).2).2.filter
      (fun r => decide (r.session_id = "schedule_1700000000"))).length = 2 := by decide

/-- C3 (amended): the identifiers generated by two Create calls are
distinct if and only if the calls' timestamps fall in distinct integer
seconds; calls within one second collide (and uniqueness of live rows can
then fail, as the counterexample shows). -/
theorem createSession_id_distinct_iff (t1 t2 : Nat) (text1 text2 : String)
    (old1 old2 : Option String) (s1 s2 : List ScheduleRow) :
    (createSession t1 text1 old1 s1).1 ≠ (createSession t2 text2 old2 s2).1 ↔
      t1 / 1000 ≠ t2 / 1000 :=
  not_congr (genSessionId_eq_iff t1 t2)

/-- C4 counterexample: a row whose created_at is 73 hours before the query
instant - strictly older than the 72-hour retention window - is still
returned by the lookup: get_schedule consults no clock at all. -/
theorem get_schedule_returns_expired_row :
    (1700000000000 : Nat) < cutoffMs (1700000000000 + 73 * 3600 * 1000) ∧
    get_schedule "schedule_1700000000"
      [⟨"schedule_1700000000", TEXT_A, 1700000000000⟩] = some TEXT_A := by decide

/-- C4 (amended): the lookup performs no expiry check - it has no time
input and returns the first matching row's text whatever its created_at, so
an expired row IS returned until an intervening Create sweeps it; expiry is
enforced by Create alone. -/
theorem get_schedule_ignores_created_at (sid text : String) (c : Nat)
    (rest : List ScheduleRow) :
    get_schedule sid (⟨sid, text, c⟩ :: rest) = some text := by
  simp [get_schedule, List.filter_cons]

/-- C5 counterexample: in a store already holding a colliding row (created
by a Create call 500 ms earlier, in the same integer second), Create
followed immediately by Get with the returned id yields the EARLIER row's
text, not the text just stored: the lookup takes `result.data[0]` and the
older row comes first. -/
theorem create_then_get_wrong_text :
    get_schedule
      (createSession 1700000000900 TEXT_B none
        (createSession 1700000000400 TEXT_A none []).2).1
      (createSession 1700000000900 TEXT_B none
        (createSession 1700000000400 TEXT_A none []).2).2 = some TEXT_A ∧
    TEXT_A ≠ TEXT_B := by decide

/-- C5 (amended): Create followed immediately by Get with the returned id
returns exactly the stored text, provided no live row of the prior store
already carries the freshly generated id (which can only happen when
another Create ran within the same integer second). -/
theorem create_then_get (nowMs : Nat) (text : String) (old : Option String)
    (store : List ScheduleRow)
    (hfresh : ∀ r ∈ store, r.session_id ≠ genSessionId nowMs) :
    get_schedule (createSession nowMs text old store).1
      (createSession nowMs text old store).2 = some text :=
  get_after_save nowMs (genSessionId nowMs) text old store hfresh

/-- C5 witness: the theorem applied to the empty store. -/
theorem create_then_get_witness :
    get_schedule (createSession 1700000000400 TEXT_A none []).1
      (createSession 1700000000400 TEXT_A none []).2 = some TEXT_A :=
  create_then_get 1700000000400 TEXT_A none [] (by simp)

/-- C6 counterexample: replacing a session during the same integer second
that produced its id makes the fresh id EQUAL to oldId, so after
Create(text, oldId) the lookup Get(oldId) returns the newly stored text
instead of not-found. -/
theorem create_replace_same_second :
    (createSession 1700000000900 TEXT_B (some "schedule_1700000000")
        [⟨"schedule_1700000000", TEXT_A, 1700000000100⟩]).1 = "schedule_1700000000" ∧
    get_schedule "schedule_1700000000"
      (createSession 1700000000900 TEXT_B (some "schedule_1700000000")
        [⟨"schedule_1700000000", TEXT_A, 1700000000100⟩]).2 = some TEXT_B := by decide

/-- C6 (amended): for a non-empty oldId, Create(text, oldId) removes every
row with oldId, so that Get(oldId) afterwards returns not-found and
Get(newId) returns the newly stored text - provided the generated id
differs from oldId (the call is not in the integer second embedded in
oldId) and no other live row carries the generated id. -/
theorem create_replace_removes_old (nowMs : Nat) (text oldId : String)
    (store : List ScheduleRow) (hone : oldId ≠ "")
    (hnew : genSessionId nowMs ≠ oldId)
    (hfresh : ∀ r ∈ store, r.session_id ≠ genSessionId nowMs) :
    get_schedule oldId (createSession nowMs text (some oldId) store).2 = none ∧
    get_schedule (createSession nowMs text (some oldId) store).1
      (createSession nowMs text (some oldId) store).2 = some text := by
  constructor
  · apply get_schedule_eq_none
    intro r hr
    rcases mem_save_schedule hr with rfl | ⟨hmem, _⟩
    · exact hnew
    · exact not_old_of_mem_deleteOldSession hone hmem
  · exact get_after_save nowMs (genSessionId nowMs) text (some oldId) store hfresh

/-- C6 witness: a replacement one second after the original upload. -/
theorem create_replace_removes_old_witness :
    get_schedule "schedule_1700000000"
      (createSession 1700000001200 TEXT_B (some "schedule_1700000000")
        [⟨"schedule_1700000000", TEXT_A, 1700000000100⟩]).2 = none :=
  (create_replace_removes_old 1700000001200 TEXT_B "schedule_1700000000"
    [⟨"schedule_1700000000", TEXT_A, 1700000000100⟩]
    (by decide) (by decide) (by decide)).1

/-- C7: every Create call sweeps the expired rows: after
Create at time nowMs no surviving row's created_at lies before the 72-hour
cutoff, and for any session id all of whose rows were expired at that
moment (and which is distinct from the freshly generated id), a subsequent
Get returns not-found. -/
theorem create_sweeps_expired (nowMs : Nat) (text sid : String) (old : Option String)
    (store : List ScheduleRow)
    (hexp : ∀ r ∈ store, r.session_id = sid → r.created_at < cutoffMs nowMs)
    (hne : sid ≠ genSessionId nowMs) :
    (∀ r ∈ (createSession nowMs text old store).2, ¬ r.created_at < cutoffMs nowMs) ∧
    get_schedule sid (createSession nowMs text old store).2 = none := by
  constructor
  · intro r hr
    rcases mem_save_schedule hr with rfl | ⟨_, hc⟩
    · exact Nat.not_lt.mpr (Nat.sub_le _ _)
    · exact hc
  · apply get_schedule_eq_none
    intro r hr
    rcases mem_save_schedule hr with rfl | ⟨hmem, hc⟩
    · exact Ne.symm hne
    · intro hsid
      exact hc (hexp r (mem_deleteOldSession hmem) hsid)

/-- C7 witness: a Create 73 hours after an upload sweeps that upload's row
and a Get on its id returns not-found. -/
theorem create_sweeps_expired_witness :
    get_schedule "schedule_1700000000"
      (createSession 1700262800000 TEXT_B none
        [⟨"schedule_1700000000", TEXT_A, 1700000000000⟩]).2 = none :=
  (create_sweeps_expired 1700262800000 TEXT_B "schedule_1700000000" none
    [⟨"schedule_1700000000", TEXT_A, 1700000000000⟩]
    (by decide) (by decide)).2

/-- C8: on any store whose rows all carry non-empty extracted text (an
invariant of the system, since uploads only store texts of 50 characters or
more), /query-schedule answers the 404 not-found error and performs no
provider call whenever the lookup misses, and otherwise forwards the stored
text and the question verbatim to the provider and returns the provider's
answer unmodified. -/
theorem query_schedule_contract (provider : String → String → String)
    (sid question : String) (store : List ScheduleRow)
    (hinv : ∀ r ∈ store, r.extracted_text ≠ "") :
    (get_schedule sid store = none →
      query_schedule provider sid question store =
        (.error ⟨404, "Schedule not found. Please re-upload your PDF."⟩, none)) ∧
    ∀ t, get_schedule sid store = some t →
      query_schedule provider sid question store =
        (.ok (provider t question), some (t, question)) := by
  constructor
  · intro h
    simp [query_schedule, h]
  · intro t h
    have htne : t ≠ "" := by
      unfold get_schedule at h
      cases hl : store.filter (fun r => decide (r.session_id = sid)) with
      | nil => rw [hl] at h; simp at h
      | cons r rs =>
        rw [hl] at h
        simp at h
        have hrmem : r ∈ store.filter (fun r => decide (r.session_id = sid)) := by
          rw [hl]; exact List.mem_cons_self r rs
        exact h ▸ hinv r (List.mem_of_mem_filter hrmem)
    simp [query_schedule, h, htne]

/-- C8 witness: a hit forwards the stored text and question to the provider
verbatim and returns its answer. -/
theorem query_schedule_contract_witness :
    query_schedule (fun a b => a ++ b) "schedule_1700000000" "when is Level 3 Small?"
      [⟨"schedule_1700000000", TEXT_A, 1700000000000⟩] =
      (.ok (TEXT_A ++ "when is Level 3 Small?"),
        some (TEXT_A, "when is Level 3 Small?")) :=
  (query_schedule_contract (fun a b => a ++ b) "schedule_1700000000"
    "when is Level 3 Small?" [⟨"schedule_1700000000", TEXT_A, 1700000000000⟩]
    (by decide)).2 TEXT_A (by decide)

/-- C9: a /create-checkout-session request whose plan_type is neither
monthly nor annual gets the error payload (a normal return value, not a
raised HTTP error) and performs no outbound Stripe call. -/
theorem checkout_unknown_plan (monthly_price annual_price : Option String)
    (email plan_type : String) (stripe : String → String → String)
    (h1 : plan_type ≠ "monthly") (h2 : plan_type ≠ "annual") :
    create_checkout_session monthly_price annual_price email plan_type stripe =
      (.error "Invalid plan type", false) := by
  simp [create_checkout_session, h1, h2]

/-- C9 witness: the theorem applied at the plan identifier weekly. -/
theorem checkout_unknown_plan_witness :
    create_checkout_session (some "price_m") (some "price_a") "dad@example.com"
      "weekly" (fun a b => a ++ b) = (.error "Invalid plan type", false) :=
  checkout_unknown_plan (some "price_m") (some "price_a") "dad@example.com"
    "weekly" (fun a b => a ++ b) (by decide) (by decide)

/-- C10: a session whose stored extracted_text is the empty string is
indistinguishable at /query-schedule from an absent session: the endpoint
returns the same 404 payload with no provider call, and its response equals
the response computed on any store where the lookup misses. -/
theorem query_schedule_empty_text_like_missing (provider : String → String → String)
    (sid question : String) (store storeB : List ScheduleRow)
    (h1 : get_schedule sid store = some "")
    (h2 : get_schedule sid storeB = none) :
    query_schedule provider sid question store =
      (.error ⟨404, "Schedule not found. Please re-upload your PDF."⟩, none) ∧
    query_schedule provider sid question store =
      query_schedule provider sid question storeB := by
  have hA : query_schedule provider sid question store =
      (.error ⟨404, "Schedule not found. Please re-upload your PDF."⟩, none) := by
    simp [query_schedule, h1]
  have hB : query_schedule provider sid question storeB =
      (.error ⟨404, "Schedule not found. Please re-upload your PDF."⟩, none) := by
    simp [query_schedule, h2]
  exact ⟨hA, hA.trans hB.symm⟩

/-- C10 witness: a store holding one empty-text row against the empty
store. -/
theorem query_schedule_empty_text_like_missing_witness :
    query_schedule (fun a b => a ++ b) "schedule_1700000000" "who is on?"
      [⟨"schedule_1700000000", "", 1700000000000⟩] =
      (.error ⟨404, "Schedule not found. Please re-upload your PDF."⟩, none) :=
  (query_schedule_empty_text_like_missing (fun a b => a ++ b) "schedule_1700000000"
    "who is on?" [⟨"schedule_1700000000", "", 1700000000000⟩] []
    (by decide) (by decide)).1
